import Mathlib

/-!
Shallow embedding of the species candidate location finder (`run.py`):
background-point rejection sampling, coordinate-to-pixel sampling, batched
prediction, threshold-based candidate extraction, and the run driver.
Geographic coordinates are rational pairs; the process-wide NumPy uniform
generator is modelled by a deterministic linear congruential generator, and
the external classifier library is a parameter of the run driver.
-/

/-- Geographic point as a (longitude, latitude) pair in fractional degrees. -/
abbrev Point : Type := ℚ × ℚ

/-- Bounding box in the tuple order used by run.py:
(min_lon, min_lat, max_lon, max_lat). -/
structure BBox where
  minLon : ℚ
  minLat : ℚ
  maxLon : ℚ
  maxLat : ℚ

/-- Squared degree-space Euclidean distance between two points, the quantity
under the square root in line 85 of run.py:
`(pos_arr[:, 0] - lon)**2 + (pos_arr[:, 1] - lat)**2`. -/
def sqDist (p q : Point) : ℚ :=
  (p.1 - q.1) ^ 2 + (p.2 - q.2) ^ 2

/-- Modelled from the spec: run.py seeds the process-wide NumPy generator
with `np.random.seed(seed)`; the concrete Mersenne Twister is outside this
repository and the spec only assumes "a deterministic uniform-random
generator", modelled here as a linear congruential step on 31-bit states. -/
def lcgNext (s : Nat) : Nat :=
  (s * 1103515245 + 12345) % 2147483648

/-- Unit-interval value in [0, 1) extracted from a generator state. -/
def lcgUnit (s : Nat) : ℚ :=
  (s : ℚ) / 2147483648

/-- Modelled from the spec: `np.random.uniform(lo, hi)` as
lo + (hi - lo) * u with u drawn in [0, 1) from the generator state. -/
def uniformDraw (lo hi : ℚ) (s : Nat) : ℚ :=
  lo + (hi - lo) * lcgUnit s

/-- Minimum squared distance from a candidate to the positive set, as
`dists.min()` on line 86 of run.py: none on an empty positive array, where
NumPy raises. The source compares `np.sqrt(...).min() > 0.005`; since the
square root is strictly monotone on nonnegatives this is the comparison of
the minimum squared distance with 0.005 ^ 2 = 1 / 40000. -/
def minSqDist (pos : List Point) (c : Point) : Option ℚ :=
  match pos.map (fun p => sqDist p c) with
  | [] => none
  | d :: ds => some (ds.foldl min d)

/-- Rejection-sampling loop of generate_negatives (run.py lines 80..87):
fuel counts the remaining iterations of `for _ in range(n_samples * 100)`,
s is the generator state threaded through the two uniform draws of each
iteration, acc holds the accepted negatives in acceptance order. -/
def genLoop (pos : List Point) (bbox : BBox) (n : Nat) :
    Nat → Nat → List Point → Option (List Point)
  | 0, _, acc => some acc
  | fuel + 1, s, acc =>
    if n ≤ acc.length then some acc
    else
      let s1 := lcgNext s
      let lon := uniformDraw bbox.minLon bbox.maxLon s1
      let s2 := lcgNext s1
      let lat := uniformDraw bbox.minLat bbox.maxLat s2
      match minSqDist pos (lon, lat) with
      | none => none
      | some m =>
        if 1 / 40000 < m then genLoop pos bbox n fuel s2 (acc ++ [(lon, lat)])
        else genLoop pos bbox n fuel s2 acc

/-- generate_negatives from run.py (lines 72..88): seed the generator, then
rejection-sample up to nSamples background points inside the bbox, keeping a
draw only when its distance to every positive exceeds 0.005 degrees. The
result is none exactly when the NumPy reduction `dists.min()` is taken over
an empty positive set, which raises in the source. -/
def generate_negatives (pos : List Point) (bbox : BBox) (nSamples : Nat)
    (seed : Nat) : Option (List Point) :=
  genLoop pos bbox nSamples (nSamples * 100) seed []

/-- North-up affine transform of a raster, as produced by
`rasterio.transform.from_bounds`: longitude of a fractional column x is
c + a * x, latitude of a fractional row y is f + e * y, with a the pixel
width, e the (negative) pixel height, and (c, f) the northwest corner. -/
structure Transform where
  a : ℚ
  e : ℚ
  c : ℚ
  f : ℚ

/-- rasterio.transform.rowcol with its default floor rounding: invert the
affine map and floor the fractional (row, col). -/
def rowcol (t : Transform) (lon lat : ℚ) : ℤ × ℤ :=
  (⌊(lat - t.f) / t.e⌋, ⌊(lon - t.c) / t.a⌋)

/-- rasterio.transform.xy with its default center offset: geographic
coordinates of the center of pixel (row, col). -/
def xy (t : Transform) (row col : Nat) : ℚ × ℚ :=
  (t.c + t.a * ((col : ℚ) + 1 / 2), t.f + t.e * ((row : ℚ) + 1 / 2))

/-- Stitched embedding mosaic: spatial shape h × w and the per-pixel
embedding vector (the channel axis of the NumPy array becomes a list). -/
structure Mosaic where
  h : Nat
  w : Nat
  data : Nat → Nat → List ℚ

/-- Bounds test of sample_embeddings (run.py line 155):
`0 <= row < h and 0 <= col < w` on the floor-resolved pixel. -/
def inBounds (m : Mosaic) (t : Transform) (p : Point) : Bool :=
  decide (0 ≤ (rowcol t p.1 p.2).1 ∧ (rowcol t p.1 p.2).1 < (m.h : ℤ) ∧
    0 ≤ (rowcol t p.1 p.2).2 ∧ (rowcol t p.1 p.2).2 < (m.w : ℤ))

/-- sample_embeddings from run.py (lines 148..159): resolve each coordinate
to a pixel, keep the embedding vector and the coordinate when the pixel is
inside the mosaic, silently drop it otherwise; both outputs are in input
order. -/
def sample_embeddings (m : Mosaic) (t : Transform) :
    List Point → List (List ℚ) × List Point
  | [] => ([], [])
  | p :: rest =>
    let rc := rowcol t p.1 p.2
    let tail := sample_embeddings m t rest
    if 0 ≤ rc.1 ∧ rc.1 < (m.h : ℤ) ∧ 0 ≤ rc.2 ∧ rc.2 < (m.w : ℤ) then
      (m.data rc.1.toNat rc.2.toNat :: tail.1, p :: tail.2)
    else tail

/-- Contiguous chunks of size B, the slices `all_pixels[i:end]` taken by the
prediction loop `for i in range(0, n_pixels, batch_size)` of run.py
(lines 217..220). For B = 0 the Python range raises; this total model then
degenerates to singleton chunks, a case excluded by the claims. -/
def chunks (B : Nat) : List α → List (List α)
  | [] => []
  | x :: xs => (x :: xs.take (B - 1)) :: chunks B (xs.drop (B - 1))
  termination_by l => l.length
  decreasing_by simp [Nat.lt_succ_iff]

/-- Per-batch probability scoring: sklearn predict_proba scores each row of
a batch independently, so a batch maps to the per-row scores. -/
def predictBatch (score : List ℚ → ℚ) (batch : List (List ℚ)) : List ℚ :=
  batch.map score

/-- Batched prediction loop of run.py (lines 214..220): score the flattened
pixels in fixed-size contiguous chunks and concatenate the per-chunk
positive-class probabilities back into one sequence. -/
def batchedPredict (score : List ℚ → ℚ) (B : Nat)
    (pixels : List (List ℚ)) : List ℚ :=
  ((chunks B pixels).map (predictBatch score)).flatten

/-- Occurrence record as used by fetch_occurrences: only the two coordinate
fields are read, each possibly absent from the JSON record. -/
structure OccRecord where
  decimalLatitude : Option ℚ
  decimalLongitude : Option ℚ

/-- Python truthiness of `r.get(key)` for a numeric field: a missing key
gives None (falsy) and a present value is falsy exactly when it is 0.0. -/
def pyTruthy : Option ℚ → Bool
  | none => false
  | some x => decide (x ≠ 0)

/-- Coordinate extraction filter of fetch_occurrences (run.py lines 68..69):
`[(r["decimalLongitude"], r["decimalLatitude"]) for r in results if
r.get("decimalLatitude") and r.get("decimalLongitude")]`. -/
def fetch_occurrences (results : List OccRecord) : List Point :=
  (results.filter fun r =>
      pyTruthy r.decimalLatitude && pyTruthy r.decimalLongitude).map
    fun r => (r.decimalLongitude.getD 0, r.decimalLatitude.getD 0)

/-- Raster cell with its position and predicted probability; the grid is
traversed row-major, matching `np.where` on the 2-D probability map. -/
abbrev Cell : Type := Nat × Nat × ℚ

/-- Row-major flattening of the mosaic pixels, `mosaic.reshape(-1,
n_channels)` in run.py (line 210). -/
def mosaicPixels (m : Mosaic) : List (List ℚ) :=
  (List.range m.h).flatMap fun r => (List.range m.w).map fun c => m.data r c

/-- Row-major (row, col, probability) cells of the probability map obtained
by zipping the pixel positions with the flattened probability sequence. -/
def probGrid (m : Mosaic) (probs : List ℚ) : List Cell :=
  (((List.range m.h).flatMap fun r =>
      (List.range m.w).map fun c => (r, c)).zip probs).map
    fun rc => (rc.1.1, rc.1.2, rc.2)

/-- Threshold selection `np.where(prob_map >= threshold)` of run.py
(line 245), in row-major order. -/
def candidateCells (grid : List Cell) (thr : ℚ) : List Cell :=
  grid.filter fun cell => decide (thr ≤ cell.2.2)

/-- Cap-and-subsample step of run.py (lines 248..250): when more than cap
cells qualify, keep the cells at the index positions returned by the
without-replacement draw `np.random.choice(len(rows), cap, replace=False)`,
abstracted as the pick argument. -/
def subsampled (q : List Cell) (cap : Nat) (pick : Nat → Nat → List Nat) :
    List Cell :=
  if cap < q.length then (pick q.length cap).map fun i => q.getD i (0, 0, 0)
  else q

/-- Candidate features written to candidates.geojson (run.py lines
243..260): threshold at 0.6, cap at 5000 with a without-replacement
subsample, convert each retained cell center to (lon, lat), and sort
ascending by probability. A feature is (lon, lat, probability). -/
def writtenCandidates (t : Transform) (grid : List Cell)
    (pick : Nat → Nat → List Nat) : List (ℚ × ℚ × ℚ) :=
  ((subsampled (candidateCells grid (3 / 5)) 5000 pick).map fun cell =>
      ((xy t cell.1 cell.2.1).1, (xy t cell.1 cell.2.1).2, cell.2.2)).mergeSort
    fun f g => decide (f.2.2 ≤ g.2.2)

/-- Fatal outcomes of a run: the two logged data-sufficiency aborts, the
NumPy reduction error on an empty positive array, and the sklearn
validation error raised when fitting with a non-positive neighbor count. -/
inductive RunError where
  | insufficientOccurrences
  | noTiles
  | emptyPositives
  | fitFailure
  deriving DecidableEq

/-- Modelled from the spec: the sklearn KNeighborsClassifier fit is outside
this repository; its documented validation rejects a non-positive
n_neighbors, so fitting raises exactly when k < 1, and otherwise yields the
library scoring function applied to the labeled training set. -/
def fitKNN (k : Nat) (X : List (List ℚ)) (y : List Nat)
    (score : List (List ℚ × Nat) → List ℚ → ℚ) :
    Except RunError (List ℚ → ℚ) :=
  if k < 1 then Except.error RunError.fitFailure
  else Except.ok (score (X.zip y))

/-- Observable outcome of one run of the pipeline driver: which fatal error
(if any) ended it, the retained in-mosaic positives, the negative count
requested from generate_negatives, the training-set size and neighbor
count, whether the library fit was invoked, and the filesystem effects. -/
structure RunTrace where
  aborted : Option RunError
  validPositives : List Point
  negReq : Option Nat
  trainSize : Option Nat
  kUsed : Option Nat
  fitCalled : Bool
  dirCreated : Bool
  filesWritten : List String
  candidates : List (ℚ × ℚ × ℚ)

/-- Driver run of run.py (lines 162..293) over its external collaborators:
records are the occurrence service response, mos is the mosaic load result
(none when no tiles are found), score models the fitted library classifier
and pick the without-replacement index draw of np.random.choice. The trace
records aborts, the quantities the claims speak about, and which output
files were written. The source writes probability.tif, candidates.geojson
and occurrences.geojson only after every earlier stage succeeded. -/
def runModel (records : List OccRecord) (mos : Option (Mosaic × Transform))
    (bbox : BBox) (seed : Nat)
    (score : List (List ℚ × Nat) → List ℚ → ℚ)
    (pick : Nat → Nat → List Nat) : RunTrace :=
  let positives := fetch_occurrences records
  if positives.length < 5 then
    { aborted := some RunError.insufficientOccurrences, validPositives := [],
      negReq := none, trainSize := none, kUsed := none, fitCalled := false,
      dirCreated := false, filesWritten := [], candidates := [] }
  else
    match mos with
    | none =>
      { aborted := some RunError.noTiles, validPositives := [],
        negReq := none, trainSize := none, kUsed := none, fitCalled := false,
        dirCreated := false, filesWritten := [], candidates := [] }
    | some (m, t) =>
      let sp := sample_embeddings m t positives
      let nreq := sp.2.length * 5
      match generate_negatives sp.2 bbox nreq seed with
      | none =>
        { aborted := some RunError.emptyPositives, validPositives := sp.2,
          negReq := some nreq, trainSize := none, kUsed := none,
          fitCalled := false, dirCreated := false, filesWritten := [],
          candidates := [] }
      | some negs =>
        let sn := sample_embeddings m t negs
        let xtrain := sp.1 ++ sn.1
        let ytrain :=
          List.replicate sp.1.length 1 ++ List.replicate sn.1.length 0
        let k := min 10 (xtrain.length / 2)
        match fitKNN k xtrain ytrain score with
        | Except.error e =>
          { aborted := some e, validPositives := sp.2, negReq := some nreq,
            trainSize := some xtrain.length, kUsed := some k,
            fitCalled := true, dirCreated := false, filesWritten := [],
            candidates := [] }
        | Except.ok model =>
          let probs := batchedPredict model 15000 (mosaicPixels m)
          { aborted := none, validPositives := sp.2, negReq := some nreq,
            trainSize := some xtrain.length, kUsed := some k,
            fitCalled := true, dirCreated := true,
            filesWritten :=
              ["probability.tif", "candidates.geojson",
               "occurrences.geojson"],
            candidates := writtenCandidates t (probGrid m probs) pick }

theorem sqDist_nonneg (p q : Point) : 0 ≤ sqDist p q :=
  add_nonneg (sq_nonneg _) (sq_nonneg _)

theorem foldl_min_le_init (l : List ℚ) (a : ℚ) : l.foldl min a ≤ a := by
  induction l generalizing a with
  | nil => simp
  | cons x xs ih =>
    simpa using le_trans (ih (min a x)) (min_le_left a x)

theorem foldl_min_le_mem (l : List ℚ) (a : ℚ) : ∀ x ∈ l, l.foldl min a ≤ x := by
  induction l generalizing a with
  | nil => simp
  | cons y ys ih =>
    intro x hx
    rcases List.mem_cons.mp hx with h | h
    · subst h
      exact le_trans (foldl_min_le_init ys (min a x)) (min_le_right a x)
    · exact ih (min a y) x h

theorem minSqDist_le (pos : List Point) (c : Point) (m : ℚ)
    (h : minSqDist pos c = some m) : ∀ p ∈ pos, m ≤ sqDist p c := by
  cases pos with
  | nil => simp [minSqDist] at h
  | cons p0 rest =>
    simp only [minSqDist, List.map_cons, Option.some.injEq] at h
    intro p hp
    rcases List.mem_cons.mp hp with h1 | h1
    · subst h1
      exact h ▸ foldl_min_le_init _ _
    · exact h ▸ foldl_min_le_mem _ _ _ (List.mem_map_of_mem _ h1)

theorem minSqDist_isSome (pos : List Point) (c : Point) (hpos : pos ≠ []) :
    ∃ m, minSqDist pos c = some m := by
  cases pos with
  | nil => exact absurd rfl hpos
  | cons p0 rest => exact ⟨_, rfl⟩

theorem genLoop_separation (pos : List Point) (bbox : BBox) (n : Nat) :
    ∀ (fuel s : Nat) (acc l : List Point),
      (∀ q ∈ acc, ∀ p ∈ pos, (1 : ℚ) / 40000 < sqDist p q) →
      genLoop pos bbox n fuel s acc = some l →
      ∀ q ∈ l, ∀ p ∈ pos, (1 : ℚ) / 40000 < sqDist p q := by
  intro fuel
  induction fuel with
  | zero =>
    intro s acc l hacc h
    cases h
    exact hacc
  | succ fuel ih =>
    intro s acc l hacc h
    simp only [genLoop] at h
    split at h
    · cases h
      exact hacc
    · split at h
      · exact absurd h (by simp)
      · rename_i m heq
        split at h
        · rename_i hm
          refine ih _ _ _ ?_ h
          intro q hq p hp
          rcases List.mem_append.mp hq with h1 | h1
          · exact hacc q h1 p hp
          · have hq1 := List.mem_singleton.mp h1
            subst hq1
            exact lt_of_lt_of_le hm (minSqDist_le pos _ m heq p hp)
        · exact ih _ _ _ hacc h

theorem genLoop_some (pos : List Point) (bbox : BBox) (n : Nat)
    (hpos : pos ≠ []) :
    ∀ (fuel s : Nat) (acc : List Point), acc.length ≤ n →
      ∃ l, genLoop pos bbox n fuel s acc = some l ∧ l.length ≤ n := by
  intro fuel
  induction fuel with
  | zero =>
    intro s acc hacc
    exact ⟨acc, rfl, hacc⟩
  | succ fuel ih =>
    intro s acc hacc
    simp only [genLoop]
    split
    · exact ⟨acc, rfl, hacc⟩
    · rename_i hguard
      obtain ⟨m, hm⟩ := minSqDist_isSome pos
        (uniformDraw bbox.minLon bbox.maxLon (lcgNext s),
         uniformDraw bbox.minLat bbox.maxLat (lcgNext (lcgNext s))) hpos
      rw [hm]
      by_cases hd : (1 : ℚ) / 40000 < m
      · simp only [if_pos hd]
        exact ih _ _ (by simp; omega)
      · simp only [if_neg hd]
        exact ih _ _ hacc

/-- C1: every negative returned by generate_negatives (for a non-empty
positive set, a bounding box with min < max on both axes, and any target
count and seed) lies at degree-space Euclidean distance strictly greater
than 0.005 from every positive point. -/
theorem generate_negatives_separation (pos : List Point) (bbox : BBox)
    (n seed : Nat) (l : List Point) (hpos : pos ≠ [])
    (hlon : bbox.minLon < bbox.maxLon) (hlat : bbox.minLat < bbox.maxLat)
    (hres : generate_negatives pos bbox n seed = some l) :
    ∀ q ∈ l, ∀ p ∈ pos,
      ((5 : ℝ) / 1000) < Real.sqrt ((sqDist p q : ℚ) : ℝ) := by
  intro q hq p hp
  have h := genLoop_separation pos bbox n (n * 100) seed [] l (by simp)
    hres q hq p hp
  have hcast : (((1 : ℚ) / 40000 : ℚ) : ℝ) < ((sqDist p q : ℚ) : ℝ) :=
    Rat.cast_lt.mpr h
  have hone : (((1 : ℚ) / 40000 : ℚ) : ℝ) = 1 / 40000 := by norm_num
  have hsq : ((5 : ℝ) / 1000) ^ 2 < ((sqDist p q : ℚ) : ℝ) := by
    nlinarith [hcast]
  have h5 : (0 : ℝ) ≤ (5 : ℝ) / 1000 := by norm_num
  calc ((5 : ℝ) / 1000) = Real.sqrt (((5 : ℝ) / 1000) ^ 2) := by
        rw [Real.sqrt_sq h5]
    _ < Real.sqrt ((sqDist p q : ℚ) : ℝ) :=
        Real.sqrt_lt_sqrt (by positivity) hsq

/-- C7: two calls of generate_negatives with identical positive set,
bounding box, target count and seed return identical negative sequences. -/
theorem generate_negatives_deterministic (pos pos2 : List Point)
    (bbox bbox2 : BBox) (n n2 seed seed2 : Nat) (h1 : pos = pos2)
    (h2 : bbox = bbox2) (h3 : n = n2) (h4 : seed = seed2) :
    generate_negatives pos bbox n seed =
      generate_negatives pos2 bbox2 n2 seed2 := by
  subst h1
  subst h2
  subst h3
  subst h4
  rfl

/-- C9: for a non-empty positive list, generate_negatives terminates within
its n * 100 attempt budget and returns a list of at most n points; a
non-empty positive list is necessary, since with an empty positive set and
a positive target the first iteration takes the NumPy minimum of an empty
distance array, which raises (modelled as none). -/
theorem generate_negatives_total_bounded (pos : List Point) (bbox : BBox)
    (n seed : Nat) :
    (pos ≠ [] →
      ∃ l, generate_negatives pos bbox n seed = some l ∧ l.length ≤ n) ∧
    (pos = [] → 0 < n → generate_negatives pos bbox n seed = none) := by
  constructor
  · intro hpos
    exact genLoop_some pos bbox n hpos (n * 100) seed [] (by simp)
  · intro hpos hn
    subst hpos
    obtain ⟨m, hm⟩ : ∃ m, n * 100 = m + 1 := ⟨n * 100 - 1, by omega⟩
    unfold generate_negatives
    rw [hm]
    simp only [genLoop]
    split
    · rename_i hle
      simp at hle
      omega
    · simp [minSqDist]

-- Witness for C1 at a concrete input: one positive at the origin, the
-- unit-degree bounding box, one requested sample, seed 1.
unseal Rat.mul Rat.add Rat.sub Rat.inv in
theorem generate_negatives_separation_check :
    generate_negatives [((0 : ℚ), 0)] ⟨0, 0, 1, 1⟩ 1 1 =
      some [((551763795 : ℚ) / 1073741824, (377401575 : ℚ) / 2147483648)] ∧
    ∀ q ∈ [((551763795 : ℚ) / 1073741824, (377401575 : ℚ) / 2147483648)],
      ∀ p ∈ [((0 : ℚ), 0)],
        ((5 : ℝ) / 1000) < Real.sqrt ((sqDist p q : ℚ) : ℝ) :=
  ⟨by decide,
   generate_negatives_separation [((0 : ℚ), 0)] ⟨0, 0, 1, 1⟩ 1 1 _
     (by decide) (by decide) (by decide) (by decide)⟩

/-- Witness for C7 at a concrete input. -/
theorem generate_negatives_deterministic_check :
    generate_negatives [((0 : ℚ), 0)] ⟨0, 0, 1, 1⟩ 1 1 =
      generate_negatives [((0 : ℚ), 0)] ⟨0, 0, 1, 1⟩ 1 1 :=
  generate_negatives_deterministic _ _ _ _ _ _ _ _ rfl rfl rfl rfl

-- Witness for C9 at concrete inputs: a singleton positive set yields a
-- result of at most one point, and the empty positive set with a positive
-- target raises.
unseal Rat.mul Rat.add Rat.sub Rat.inv in
theorem generate_negatives_total_bounded_check :
    (∃ l, generate_negatives [((0 : ℚ), 0)] ⟨0, 0, 1, 1⟩ 1 1 = some l ∧
      l.length ≤ 1) ∧
    generate_negatives ([] : List Point) ⟨0, 0, 1, 1⟩ 1 1 = none :=
  ⟨(generate_negatives_total_bounded [((0 : ℚ), 0)] ⟨0, 0, 1, 1⟩ 1 1).1
     (by decide),
   (generate_negatives_total_bounded [] ⟨0, 0, 1, 1⟩ 1 1).2 rfl (by decide)⟩

/-- C3: sample_embeddings returns equal-length embedding and coordinate
outputs; the retained coordinates are exactly the inputs whose resolved
pixel lies inside the mosaic, in input order, and each retained embedding
is the mosaic vector at that resolved pixel; out-of-mosaic coordinates are
dropped without error. -/
theorem sample_embeddings_filter_spec (m : Mosaic) (t : Transform)
    (coords : List Point) :
    (sample_embeddings m t coords).2 = coords.filter (inBounds m t) ∧
    (sample_embeddings m t coords).1.length =
      (sample_embeddings m t coords).2.length ∧
    (sample_embeddings m t coords).1 =
      (coords.filter (inBounds m t)).map fun p =>
        m.data (rowcol t p.1 p.2).1.toNat (rowcol t p.1 p.2).2.toNat := by
  induction coords with
  | nil => exact ⟨rfl, rfl, rfl⟩
  | cons p rest ih =>
    obtain ⟨ih1, ih2, ih3⟩ := ih
    by_cases h : 0 ≤ (rowcol t p.1 p.2).1 ∧ (rowcol t p.1 p.2).1 < (m.h : ℤ) ∧
        0 ≤ (rowcol t p.1 p.2).2 ∧ (rowcol t p.1 p.2).2 < (m.w : ℤ)
    · have hb : inBounds m t p = true := by
        simp only [inBounds]
        exact decide_eq_true h
      simp only [sample_embeddings, if_pos h, List.filter_cons, hb, if_pos,
        List.map_cons, List.length_cons]
      exact ⟨by rw [ih1], by rw [ih2], by rw [ih3]⟩
    · have hb : inBounds m t p = false := by
        simp only [inBounds]
        exact decide_eq_false h
      simp only [sample_embeddings, if_neg h, List.filter_cons, hb,
        Bool.false_eq_true, if_false]
      exact ⟨ih1, ih2, ih3⟩

theorem chunks_flatten (B : Nat) (l : List α) : (chunks B l).flatten = l := by
  suffices h : ∀ (n : Nat) (l : List α), l.length = n →
      (chunks B l).flatten = l from h l.length l rfl
  intro n
  induction n using Nat.strong_induction_on with
  | _ n ih =>
    intro l hl
    cases l with
    | nil => simp [chunks]
    | cons x xs =>
      rw [chunks]
      simp only [List.flatten_cons]
      rw [ih (xs.drop (B - 1)).length (by simp [← hl]; omega) _ rfl]
      simp [List.take_append_drop]

theorem chunks_map_flatten (score : List ℚ → ℚ) (B : Nat)
    (l : List (List ℚ)) :
    ((chunks B l).map (predictBatch score)).flatten = l.map score := by
  have h : ∀ (L : List (List (List ℚ))),
      (L.map (predictBatch score)).flatten = L.flatten.map score := by
    intro L
    induction L with
    | nil => rfl
    | cons b bs ihb => simp [predictBatch, ihb]
  rw [h, chunks_flatten]

/-- C4: the batched prediction loop yields the same per-pixel probability
sequence for any two positive batch sizes, and the same sequence as scoring
the whole flattened mosaic at once; batch boundaries do not affect any
pixel. In this exact rational model the floating-point tolerance of the
claim is exact equality. -/
theorem batchedPredict_batch_size_independent (score : List ℚ → ℚ)
    (B B2 : Nat) (pixels : List (List ℚ)) (hB : 0 < B) (hB2 : 0 < B2)
    (hne : B ≠ B2) :
    batchedPredict score B pixels = batchedPredict score B2 pixels ∧
    batchedPredict score B pixels = predictBatch score pixels := by
  unfold batchedPredict
  rw [chunks_map_flatten, chunks_map_flatten]
  exact ⟨rfl, rfl⟩

-- Witness for C4 at concrete batch sizes 2 and 3 over four pixels.
theorem batchedPredict_batch_size_independent_check :
    0 < 2 ∧ 0 < 3 ∧ 2 ≠ 3 ∧
    (batchedPredict (fun e => e.headD 0) 2 [[1], [2], [3], [4]] =
        batchedPredict (fun e => e.headD 0) 3 [[1], [2], [3], [4]] ∧
      batchedPredict (fun e => e.headD 0) 2 [[1], [2], [3], [4]] =
        predictBatch (fun e => e.headD 0) [[1], [2], [3], [4]]) :=
  ⟨by decide, by decide, by decide,
   batchedPredict_batch_size_independent (fun e => e.headD 0) 2 3
     [[1], [2], [3], [4]] (by decide) (by decide) (by decide)⟩

/-- C8: the truthiness filter of fetch_occurrences keeps a record exactly
when both coordinates are present and nonzero, so a record with a missing
coordinate and a record with decimal latitude or longitude exactly 0.0 (on
the equator or prime meridian) are dropped alike and never reach the
positive set. -/
theorem fetch_occurrences_truthiness_filter (results : List OccRecord) :
    fetch_occurrences results =
      (results.filter fun r =>
        decide (r.decimalLatitude ≠ none ∧ r.decimalLatitude ≠ some 0 ∧
          r.decimalLongitude ≠ none ∧ r.decimalLongitude ≠ some 0)).map
        fun r => (r.decimalLongitude.getD 0, r.decimalLatitude.getD 0) := by
  unfold fetch_occurrences
  congr 1
  apply List.filter_congr
  intro r _
  cases hlat : r.decimalLatitude with
  | none => simp [pyTruthy, hlat]
  | some a =>
    cases hlon : r.decimalLongitude with
    | none => simp [pyTruthy, hlat, hlon]
    | some b =>
      by_cases ha : a = 0 <;> by_cases hb : b = 0 <;>
        simp [pyTruthy, hlat, hlon, ha, hb]

theorem mem_subsampled (q : List Cell) (cap : Nat)
    (pick : Nat → Nat → List Nat)
    (hbound : ∀ n k i, k ≤ n → i ∈ pick n k → i < n) :
    ∀ c ∈ subsampled q cap pick, c ∈ q := by
  intro c hc
  unfold subsampled at hc
  split at hc
  · rename_i hover
    obtain ⟨i, hi, hceq⟩ := List.mem_map.mp hc
    have hilt : i < q.length := hbound q.length cap i (le_of_lt hover) hi
    rw [← hceq, List.getD_eq_getElem q _ hilt]
    exact List.getElem_mem hilt
  · exact hc

theorem mem_candidateCells (grid : List Cell) (thr : ℚ) :
    ∀ c ∈ candidateCells grid thr, thr ≤ c.2.2 := by
  intro c hc
  exact of_decide_eq_true (List.mem_filter.mp hc).2

/-- C2: the written candidate collection has at most 5000 features, every
feature carries probability at least the 0.6 threshold, and when more than
5000 cells qualify the retained collection is a selection of qualifying
cells at 5000 distinct in-range index positions — a without-replacement
subsample; uniformity of the draw itself is the distributional contract of
the external np.random.choice, modelled by the pick hypotheses. -/
theorem writtenCandidates_cap_threshold_subsample (t : Transform)
    (grid : List Cell) (pick : Nat → Nat → List Nat)
    (hlen : ∀ n k, k ≤ n → (pick n k).length = k)
    (hnodup : ∀ n k, (pick n k).Nodup)
    (hbound : ∀ n k i, k ≤ n → i ∈ pick n k → i < n) :
    (writtenCandidates t grid pick).length ≤ 5000 ∧
    (∀ f ∈ writtenCandidates t grid pick, (3 / 5 : ℚ) ≤ f.2.2) ∧
    (5000 < (candidateCells grid (3 / 5)).length →
      (writtenCandidates t grid pick).length = 5000 ∧
      ∃ idxs : List Nat, idxs.Nodup ∧ idxs.length = 5000 ∧
        (∀ i ∈ idxs, i < (candidateCells grid (3 / 5)).length) ∧
        (writtenCandidates t grid pick).Perm
          ((idxs.map fun i =>
              (candidateCells grid (3 / 5)).getD i (0, 0, 0)).map
            fun cell =>
              ((xy t cell.1 cell.2.1).1, (xy t cell.1 cell.2.1).2,
                cell.2.2))) := by
  have hperm : (writtenCandidates t grid pick).Perm
      ((subsampled (candidateCells grid (3 / 5)) 5000 pick).map fun cell =>
        ((xy t cell.1 cell.2.1).1, (xy t cell.1 cell.2.1).2, cell.2.2)) :=
    List.mergeSort_perm _ _
  refine ⟨?_, ?_, ?_⟩
  · rw [hperm.length_eq, List.length_map]
    unfold subsampled
    split
    · rename_i hover
      rw [List.length_map, hlen _ 5000 (le_of_lt hover)]
    · rename_i hover
      omega
  · intro f hf
    obtain ⟨c, hc, hfe⟩ := List.mem_map.mp (hperm.mem_iff.mp hf)
    have hcq := mem_subsampled (candidateCells grid (3 / 5)) 5000 pick
      hbound c hc
    rw [← hfe]
    exact mem_candidateCells grid (3 / 5) c hcq
  · intro hover
    have hsub : subsampled (candidateCells grid (3 / 5)) 5000 pick =
        (pick (candidateCells grid (3 / 5)).length 5000).map fun i =>
          (candidateCells grid (3 / 5)).getD i (0, 0, 0) := by
      unfold subsampled
      rw [if_pos hover]
    refine ⟨?_, pick (candidateCells grid (3 / 5)).length 5000,
      hnodup _ _, hlen _ _ (le_of_lt hover),
      (fun i hi => hbound _ _ i (le_of_lt hover) hi), ?_⟩
    · rw [hperm.length_eq, List.length_map, hsub, List.length_map,
        hlen _ _ (le_of_lt hover)]
    · rw [← hsub]
      exact hperm

-- Witness for C2 at a concrete grid and a concrete without-replacement
-- index draw (an initial segment of indices).
theorem writtenCandidates_cap_threshold_subsample_check :
    (writtenCandidates ⟨1, -1, 0, 0⟩ [(0, 0, (7 : ℚ) / 10)]
        (fun _ k => List.range k)).length ≤ 5000 ∧
    (∀ f ∈ writtenCandidates ⟨1, -1, 0, 0⟩ [(0, 0, (7 : ℚ) / 10)]
        (fun _ k => List.range k), (3 / 5 : ℚ) ≤ f.2.2) :=
  ⟨(writtenCandidates_cap_threshold_subsample ⟨1, -1, 0, 0⟩
      [(0, 0, (7 : ℚ) / 10)] (fun _ k => List.range k)
      (fun _ k _ => List.length_range k)
      (fun _ k => List.nodup_range k)
      (fun _ k i hk hi => lt_of_lt_of_le (List.mem_range.mp hi) hk)).1,
   (writtenCandidates_cap_threshold_subsample ⟨1, -1, 0, 0⟩
      [(0, 0, (7 : ℚ) / 10)] (fun _ k => List.range k)
      (fun _ k _ => List.length_range k)
      (fun _ k => List.nodup_range k)
      (fun _ k i hk hi => lt_of_lt_of_le (List.mem_range.mp hi) hk)).2.1⟩

/-- C6: with fewer than 5 valid occurrences the run aborts with the logged
insufficient-occurrences error before the output directory is created and
before any of the three output files is written. -/
theorem run_aborts_insufficient_occurrences (records : List OccRecord)
    (mos : Option (Mosaic × Transform)) (bbox : BBox) (seed : Nat)
    (score : List (List ℚ × Nat) → List ℚ → ℚ)
    (pick : Nat → Nat → List Nat)
    (h : (fetch_occurrences records).length < 5) :
    (runModel records mos bbox seed score pick).aborted =
        some RunError.insufficientOccurrences ∧
    (runModel records mos bbox seed score pick).dirCreated = false ∧
    (runModel records mos bbox seed score pick).filesWritten = [] := by
  simp [runModel, if_pos h]

-- Witness for C6: an empty occurrence response.
theorem run_aborts_insufficient_occurrences_check :
    (fetch_occurrences []).length < 5 ∧
    ((runModel [] none ⟨0, 0, 1, 1⟩ 42 (fun _ _ => 0)
        (fun _ k => List.range k)).aborted =
          some RunError.insufficientOccurrences ∧
      (runModel [] none ⟨0, 0, 1, 1⟩ 42 (fun _ _ => 0)
        (fun _ k => List.range k)).dirCreated = false ∧
      (runModel [] none ⟨0, 0, 1, 1⟩ 42 (fun _ _ => 0)
        (fun _ k => List.range k)).filesWritten = []) :=
  ⟨by decide,
   run_aborts_insufficient_occurrences [] none ⟨0, 0, 1, 1⟩ 42
     (fun _ _ => 0) (fun _ k => List.range k) (by decide)⟩

/-- C10: whenever the run requests background negatives, the requested
target count equals 5 times the number of valid in-mosaic positive
coordinates. -/
theorem run_negatives_request_count (records : List OccRecord)
    (mos : Option (Mosaic × Transform)) (bbox : BBox) (seed : Nat)
    (score : List (List ℚ × Nat) → List ℚ → ℚ)
    (pick : Nat → Nat → List Nat) (n : Nat)
    (h : (runModel records mos bbox seed score pick).negReq = some n) :
    n = 5 *
      (runModel records mos bbox seed score pick).validPositives.length := by
  by_cases h5 : (fetch_occurrences records).length < 5
  · simp [runModel, h5] at h
  · cases mos with
    | none => simp [runModel, h5] at h
    | some mt =>
      obtain ⟨m, t⟩ := mt
      simp only [runModel, if_neg h5] at h ⊢
      split at h
      · rename_i heq1
        simp only [heq1, Option.some.injEq] at h ⊢
        omega
      · rename_i negs heq1
        split at h
        · rename_i e heq2
          simp only [heq1, heq2, Option.some.injEq] at h ⊢
          omega
        · rename_i model heq2
          simp only [heq1, heq2, Option.some.injEq] at h ⊢
          omega

-- Witness for C10: five fetched occurrences of which one is inside the
-- 1-by-1 mosaic, so the run requests 5 = 5 * 1 negatives.
unseal Rat.mul Rat.add Rat.sub Rat.inv in
theorem run_negatives_request_count_check :
    (runModel
        [⟨some (1 / 2000), some (1 / 2000)⟩, ⟨some (1 / 2), some (1 / 2)⟩,
          ⟨some (1 / 2), some (1 / 2)⟩, ⟨some (1 / 2), some (1 / 2)⟩,
          ⟨some (1 / 2), some (1 / 2)⟩]
        (some (⟨1, 1, fun _ _ => [1]⟩, ⟨1 / 1000, -1 / 1000, 0, 1 / 1000⟩))
        ⟨0, 0, 1, 1⟩ 42 (fun _ _ => 0) (fun _ k => List.range k)).negReq =
      some 5 ∧
    5 = 5 * (runModel
        [⟨some (1 / 2000), some (1 / 2000)⟩, ⟨some (1 / 2), some (1 / 2)⟩,
          ⟨some (1 / 2), some (1 / 2)⟩, ⟨some (1 / 2), some (1 / 2)⟩,
          ⟨some (1 / 2), some (1 / 2)⟩]
        (some (⟨1, 1, fun _ _ => [1]⟩, ⟨1 / 1000, -1 / 1000, 0, 1 / 1000⟩))
        ⟨0, 0, 1, 1⟩ 42 (fun _ _ => 0)
        (fun _ k => List.range k)).validPositives.length :=
  ⟨by decide,
   run_negatives_request_count
     [⟨some (1 / 2000), some (1 / 2000)⟩, ⟨some (1 / 2), some (1 / 2)⟩,
       ⟨some (1 / 2), some (1 / 2)⟩, ⟨some (1 / 2), some (1 / 2)⟩,
       ⟨some (1 / 2), some (1 / 2)⟩]
     (some (⟨1, 1, fun _ _ => [1]⟩, ⟨1 / 1000, -1 / 1000, 0, 1 / 1000⟩))
     ⟨0, 0, 1, 1⟩ 42 (fun _ _ => 0) (fun _ k => List.range k) 5 (by decide)⟩

-- Counterexample for C5: a run whose training set has a single sample, so
-- k = min 10 (1 / 2) = 0 < 1, yet the run does proceed to invoke the
-- library fit (fitCalled = true) and dies with the library validation
-- error, not with a training-set-too-small precondition abort before fit.
unseal Rat.mul Rat.add Rat.sub Rat.inv in
theorem k_precondition_check_counterexample :
    (runModel
        [⟨some (1 / 2000), some (1 / 2000)⟩, ⟨some (1 / 2), some (1 / 2)⟩,
          ⟨some (1 / 2), some (1 / 2)⟩, ⟨some (1 / 2), some (1 / 2)⟩,
          ⟨some (1 / 2), some (1 / 2)⟩]
        (some (⟨1, 1, fun _ _ => [1]⟩, ⟨1 / 1000, -1 / 1000, 0, 1 / 1000⟩))
        ⟨0, 0, 1, 1⟩ 42 (fun _ _ => 0) (fun _ k => List.range k)).kUsed =
      some 0 ∧
    (runModel
        [⟨some (1 / 2000), some (1 / 2000)⟩, ⟨some (1 / 2), some (1 / 2)⟩,
          ⟨some (1 / 2), some (1 / 2)⟩, ⟨some (1 / 2), some (1 / 2)⟩,
          ⟨some (1 / 2), some (1 / 2)⟩]
        (some (⟨1, 1, fun _ _ => [1]⟩, ⟨1 / 1000, -1 / 1000, 0, 1 / 1000⟩))
        ⟨0, 0, 1, 1⟩ 42 (fun _ _ => 0) (fun _ k => List.range k)).fitCalled =
      true ∧
    (runModel
        [⟨some (1 / 2000), some (1 / 2000)⟩, ⟨some (1 / 2), some (1 / 2)⟩,
          ⟨some (1 / 2), some (1 / 2)⟩, ⟨some (1 / 2), some (1 / 2)⟩,
          ⟨some (1 / 2), some (1 / 2)⟩]
        (some (⟨1, 1, fun _ _ => [1]⟩, ⟨1 / 1000, -1 / 1000, 0, 1 / 1000⟩))
        ⟨0, 0, 1, 1⟩ 42 (fun _ _ => 0) (fun _ k => List.range k)).aborted =
      some RunError.fitFailure := by
  refine ⟨by decide, by decide, by decide⟩

/-- C5 (amended): the neighbor count is computed as
k = min(10, floor(training_set_size / 2)) with no k ≥ 1 precondition check;
when the computed k is 0 the run still proceeds to invoke the library fit,
which fails with the library n_neighbors validation error (and no output is
written), rather than aborting with a training-set-too-small precondition
error before fitting. -/
theorem k_formula_no_guard (records : List OccRecord)
    (mos : Option (Mosaic × Transform)) (bbox : BBox) (seed : Nat)
    (score : List (List ℚ × Nat) → List ℚ → ℚ)
    (pick : Nat → Nat → List Nat) (k n : Nat)
    (hk : (runModel records mos bbox seed score pick).kUsed = some k)
    (hn : (runModel records mos bbox seed score pick).trainSize = some n) :
    k = min 10 (n / 2) ∧
    (k = 0 →
      (runModel records mos bbox seed score pick).fitCalled = true ∧
      (runModel records mos bbox seed score pick).aborted =
        some RunError.fitFailure ∧
      (runModel records mos bbox seed score pick).dirCreated = false ∧
      (runModel records mos bbox seed score pick).filesWritten = []) := by
  by_cases h5 : (fetch_occurrences records).length < 5
  · simp [runModel, h5] at hk
  · cases mos with
    | none => simp [runModel, h5] at hk
    | some mt =>
      obtain ⟨m, t⟩ := mt
      simp only [runModel, if_neg h5] at hk hn ⊢
      split at hk
      · rename_i heq1
        simp only [heq1] at hk
        simp at hk
      · rename_i negs heq1
        simp only [heq1] at hn ⊢
        split at hk
        · rename_i e heq2
          simp only [heq2, Option.some.injEq] at hk hn ⊢
          have he : e = RunError.fitFailure := by
            by_cases hklt :
                min 10 (((sample_embeddings m t
                  (fetch_occurrences records)).1 ++
                  (sample_embeddings m t negs).1).length / 2) < 1
            · simp only [fitKNN, if_pos hklt] at heq2
              exact (Except.error.inj heq2).symm
            · simp only [fitKNN, if_neg hklt] at heq2
              cases heq2
          subst he
          constructor
          · rw [← hk, ← hn]
          · intro _
            refine ⟨?_, ?_, ?_, ?_⟩ <;> trivial
        · rename_i model heq2
          simp only [heq2, Option.some.injEq] at hk hn ⊢
          constructor
          · rw [← hk, ← hn]
          · intro hk0
            exfalso
            rw [hk0] at hk
            simp only [fitKNN] at heq2
            rw [hk] at heq2
            simp at heq2

-- Witness for the amended C5 at the single-training-sample run.
unseal Rat.mul Rat.add Rat.sub Rat.inv in
theorem k_formula_no_guard_check :
    (runModel
        [⟨some (1 / 2000), some (1 / 2000)⟩, ⟨some (1 / 2), some (1 / 2)⟩,
          ⟨some (1 / 2), some (1 / 2)⟩, ⟨some (1 / 2), some (1 / 2)⟩,
          ⟨some (1 / 2), some (1 / 2)⟩]
        (some (⟨1, 1, fun _ _ => [1]⟩, ⟨1 / 1000, -1 / 1000, 0, 1 / 1000⟩))
        ⟨0, 0, 1, 1⟩ 42 (fun _ _ => 0) (fun _ k => List.range k)).kUsed =
      some 0 ∧
    (runModel
        [⟨some (1 / 2000), some (1 / 2000)⟩, ⟨some (1 / 2), some (1 / 2)⟩,
          ⟨some (1 / 2), some (1 / 2)⟩, ⟨some (1 / 2), some (1 / 2)⟩,
          ⟨some (1 / 2), some (1 / 2)⟩]
        (some (⟨1, 1, fun _ _ => [1]⟩, ⟨1 / 1000, -1 / 1000, 0, 1 / 1000⟩))
        ⟨0, 0, 1, 1⟩ 42 (fun _ _ => 0) (fun _ k => List.range k)).trainSize =
      some 1 ∧
    (0 = min 10 (1 / 2) ∧
      (0 = 0 →
        (runModel
            [⟨some (1 / 2000), some (1 / 2000)⟩,
              ⟨some (1 / 2), some (1 / 2)⟩, ⟨some (1 / 2), some (1 / 2)⟩,
              ⟨some (1 / 2), some (1 / 2)⟩, ⟨some (1 / 2), some (1 / 2)⟩]
            (some (⟨1, 1, fun _ _ => [1]⟩,
              ⟨1 / 1000, -1 / 1000, 0, 1 / 1000⟩))
            ⟨0, 0, 1, 1⟩ 42 (fun _ _ => 0)
            (fun _ k => List.range k)).fitCalled = true ∧
        (runModel
            [⟨some (1 / 2000), some (1 / 2000)⟩,
              ⟨some (1 / 2), some (1 / 2)⟩, ⟨some (1 / 2), some (1 / 2)⟩,
              ⟨some (1 / 2), some (1 / 2)⟩, ⟨some (1 / 2), some (1 / 2)⟩]
            (some (⟨1, 1, fun _ _ => [1]⟩,
              ⟨1 / 1000, -1 / 1000, 0, 1 / 1000⟩))
            ⟨0, 0, 1, 1⟩ 42 (fun _ _ => 0)
            (fun _ k => List.range k)).aborted =
          some RunError.fitFailure ∧
        (runModel
            [⟨some (1 / 2000), some (1 / 2000)⟩,
              ⟨some (1 / 2), some (1 / 2)⟩, ⟨some (1 / 2), some (1 / 2)⟩,
              ⟨some (1 / 2), some (1 / 2)⟩, ⟨some (1 / 2), some (1 / 2)⟩]
            (some (⟨1, 1, fun _ _ => [1]⟩,
              ⟨1 / 1000, -1 / 1000, 0, 1 / 1000⟩))
            ⟨0, 0, 1, 1⟩ 42 (fun _ _ => 0)
            (fun _ k => List.range k)).dirCreated = false ∧
        (runModel
            [⟨some (1 / 2000), some (1 / 2000)⟩,
              ⟨some (1 / 2), some (1 / 2)⟩, ⟨some (1 / 2), some (1 / 2)⟩,
              ⟨some (1 / 2), some (1 / 2)⟩, ⟨some (1 / 2), some (1 / 2)⟩]
            (some (⟨1, 1, fun _ _ => [1]⟩,
              ⟨1 / 1000, -1 / 1000, 0, 1 / 1000⟩))
            ⟨0, 0, 1, 1⟩ 42 (fun _ _ => 0)
            (fun _ k => List.range k)).filesWritten = [])) :=
  ⟨by decide, by decide,
   k_formula_no_guard
     [⟨some (1 / 2000), some (1 / 2000)⟩, ⟨some (1 / 2), some (1 / 2)⟩,
       ⟨some (1 / 2), some (1 / 2)⟩, ⟨some (1 / 2), some (1 / 2)⟩,
       ⟨some (1 / 2), some (1 / 2)⟩]
     (some (⟨1, 1, fun _ _ => [1]⟩, ⟨1 / 1000, -1 / 1000, 0, 1 / 1000⟩))
     ⟨0, 0, 1, 1⟩ 42 (fun _ _ => 0) (fun _ k => List.range k) 0 1
     (by decide) (by decide)⟩
